import Mathlib

/-!
# Shallow embedding of `wowapi/api.py` (class `WowApi`)

The Python client keeps a per-region token cache (`self._access_tokens`),
performs an OAuth client-credentials exchange (`_get_client_credentials`),
dispatches resource requests with a 401-triggered refresh-and-retry
(`_handle_request`), and exposes `get_resource` / `get_data_resource` /
`get_item` on top.

The embedding makes the external world explicit in an `ApiState` record:
  * `clock`            : the successive values returned by `_utcnow()`
    (UTC timestamps in whole seconds, one popped per call);
  * `oauthResponses`   : the successive transport outcomes of the
    `session.get` issued by `_get_client_credentials`;
  * `resourceResponses`: the successive transport outcomes of the
    `session.get` issued by `_handle_request`;
  * `oauthRequests`    : the log of OAuth exchange URLs attempted so far;
  * `sentRequests`     : the log of resource requests dispatched so far
    (URL and query-parameter set).
An exhausted response oracle models a transport error (`RequestException`).
Every method returns its Python result as an `Except` together with the
object state after the call, since Python exceptions propagate while
leaving `self` in its mutated state.
-/

set_option autoImplicit false
set_option linter.unusedVariables false
set_option linter.unnecessarySeqFocus false

namespace Wow

/-- Parsed JSON values, as returned by `response.json()`. -/
inductive Json where
  | null
  | bool (b : Bool)
  | num (n : Int)
  | str (s : String)
  | arr (elems : List Json)
  | obj (fields : List (String × Json))
deriving Repr

/-- Python `d[k]` on a parsed JSON object: first binding of `k`, if any. -/
def Json.getField (j : Json) (k : String) : Option Json :=
  match j with
  | .obj fields => (fields.find? (fun p => p.1 == k)).map (·.2)
  | _ => none

/-- Python dict lookup `d.get(k)` on an association list. -/
def dictGet {α : Type} (l : List (String × α)) (k : String) : Option α :=
  (l.find? (fun p => p.1 == k)).map (·.2)

/-- Python dict assignment `d[k] = v`: replace the binding of `k` in place,
    or append a new binding at the end. -/
def dictSet {α : Type} (l : List (String × α)) (k : String) (v : α) :
    List (String × α) :=
  match l with
  | [] => [(k, v)]
  | (k', v') :: rest =>
      if k' == k then (k, v) :: rest else (k', v') :: dictSet rest k v

/-- Result of one `requests.Session.get` call: either the transport raised
    `RequestException`, or an HTTP response arrived with a status code and a
    body (`none` models a body on which `response.json()` raises). -/
inductive HttpResult where
  | connError (msg : String)
  | response (status : Nat) (body : Option Json)
deriving Repr

/-- The `requests` library's `response.ok`: true exactly when the status code is
    below 400. -/
def responseOk (status : Nat) : Bool :=
  status < 400

/-- The two exception classes raised by `api.py`, plus a constructor for
    exceptions the module raises without catching or wrapping (such as the
    `KeyError` from `json['access_token']` on a body missing that field). -/
inductive ApiError where
  | oauth (msg : String)
  | request (msg : String)
  | uncaught (msg : String)
deriving Repr, DecidableEq

/-- Is this error the `WowApiOauthException` kind? -/
def ApiError.isOauth : ApiError → Bool
  | .oauth _ => true
  | _ => false

/-- Is this error the `WowApiException` kind? -/
def ApiError.isRequest : ApiError → Bool
  | .request _ => true
  | _ => false

/-- Is this error an exception `api.py` neither raises as one of its two
    typed kinds nor catches (e.g. `KeyError`)? -/
def ApiError.isUncaught : ApiError → Bool
  | .uncaught _ => true
  | _ => false

/-- One cached token, the value stored at
    `self._access_tokens[region] = {'token': ..., 'expiration': ...}`.
    `expiration` is an absolute UTC timestamp in seconds. -/
structure TokenRecord where
  token : Json
  expiration : Int
deriving Repr

/-- A resource request as dispatched by `_handle_request`:
    the URL and the query-parameter set (`params=` keyword). -/
structure SentRequest where
  url : String
  params : List (String × Json)
deriving Repr

/-- The `WowApi` object state together with the modelled outside world. -/
structure ApiState where
  client_id : String
  client_secret : String
  access_tokens : List (String × TokenRecord)
  clock : List Int
  oauthResponses : List HttpResult
  resourceResponses : List HttpResult
  oauthRequests : List String
  sentRequests : List SentRequest
deriving Repr

/-- Python `WowApi.__init__(client_id, client_secret, ...)`: the token cache starts
    empty. The world oracles are parameters of the model. -/
def WowApi.init (client_id client_secret : String) (clock : List Int)
    (oauthResponses resourceResponses : List HttpResult) : ApiState :=
  { client_id := client_id
    client_secret := client_secret
    access_tokens := []
    clock := clock
    oauthResponses := oauthResponses
    resourceResponses := resourceResponses
    oauthRequests := []
    sentRequests := [] }

/-- Python `self._utcnow()`: pop the next clock value (0 once the model clock is
    exhausted). -/
def popClock (s : ApiState) : Int × ApiState :=
  match s.clock with
  | [] => (0, s)
  | t :: rest => (t, { s with clock := rest })

/-- The `session.get` of `_get_client_credentials`: record the exchange
    attempt and pop the next OAuth response; an exhausted oracle models a
    `RequestException`. -/
def popOauth (s : ApiState) (url : String) : HttpResult × ApiState :=
  match s.oauthResponses with
  | [] => (.connError "connection error",
           { s with oauthRequests := s.oauthRequests ++ [url] })
  | r :: rest => (r, { s with oauthRequests := s.oauthRequests ++ [url],
                              oauthResponses := rest })

/-- The OAuth exchange URL built by `_get_client_credentials`
    (lines 43-49): `https://{region}.battle.net{path}`, replaced by the
    fixed host `https://www.battlenet.com.cn` when the region is `cn`. -/
def oauthUrl (s : ApiState) (region : String) : String :=
  let path := "/oauth/token?grant_type=client_credentials&client_id="
    ++ s.client_id ++ "&client_secret=" ++ s.client_secret
  if region == "cn" then "https://www.battlenet.com.cn" ++ path
  else "https://" ++ region ++ ".battle.net" ++ path

/-- Python `WowApi._get_client_credentials(region)` (lines 42-79): build the OAuth
    URL, read `_utcnow()`, issue the GET, and on a 2xx/3xx response with a
    parseable body store `{'token': json['access_token'],
    'expiration': now + timedelta(seconds=json['expires_in'])}` in the
    cache. Transport errors, non-ok statuses and unparseable bodies raise
    `WowApiOauthException`; a parseable body missing `access_token` or
    `expires_in` hits an uncaught `KeyError` (the subscript on line 72/73 is
    outside the `try`), and a non-integer `expires_in` an uncaught
    `TypeError` inside `timedelta`. -/
def get_client_credentials (s : ApiState) (region : String) :
    Except ApiError Unit × ApiState :=
  let url := oauthUrl s region
  let (now, s1) := popClock s
  let (res, s2) := popOauth s1 url
  match res with
  | .connError msg => (.error (.oauth msg), s2)
  | .response status body =>
    if responseOk status then
      match body with
      | none =>
          (.error (.oauth ("Invalid Json in OAuth request for " ++ url)), s2)
      | some j =>
        match j.getField "access_token" with
        | none => (.error (.uncaught "KeyError: access_token"), s2)
        | some tok =>
          match j.getField "expires_in" with
          | none => (.error (.uncaught "KeyError: expires_in"), s2)
          | some (.num n) =>
              (.ok (),
               { s2 with access_tokens :=
                   dictSet s2.access_tokens region ⟨tok, now + n⟩ })
          | some _ => (.error (.uncaught "TypeError: expires_in"), s2)
    else
      (.error (.oauth ("Invalid response - " ++ toString status ++ " for "
        ++ url)), s2)

/-- The function `popClock` in closed form. -/
theorem popClock_eq (s : ApiState) :
    popClock s = (s.clock.headD 0, { s with clock := s.clock.tail }) := by
  unfold popClock
  cases hc : s.clock with
  | nil =>
      simp only [hc, List.headD_nil, List.tail_nil]
      rw [← hc]
  | cons t rest => rfl

/-- The function `popOauth` in closed form. -/
theorem popOauth_eq (s : ApiState) (url : String) :
    popOauth s url =
      (s.oauthResponses.headD (.connError "connection error"),
       { s with oauthRequests := s.oauthRequests ++ [url],
                oauthResponses := s.oauthResponses.tail }) := by
  unfold popOauth
  cases hc : s.oauthResponses with
  | nil => simp only [hc, List.headD_nil, List.tail_nil]
  | cons r rest => rfl

/-- The exchange `_get_client_credentials` never touches the resource-response oracle:
    it only reads the clock, consumes one OAuth response and updates the
    token cache and the OAuth log. -/
theorem get_client_credentials_resourceResponses (s : ApiState)
    (region : String) :
    (get_client_credentials s region).2.resourceResponses =
      s.resourceResponses := by
  simp only [get_client_credentials, popClock_eq, popOauth_eq]
  rcases s.oauthResponses.headD (.connError "connection error") with
    msg | ⟨status, body⟩
  · rfl
  · simp only []
    split
    · rcases body with _ | j
      · rfl
      · simp only []
        rcases j.getField "access_token" with _ | tok
        · rfl
        · simp only []
          rcases j.getField "expires_in" with _ | e
          · rfl
          · rcases e <;> rfl
    · rfl

/-- Python `WowApi._handle_request(url, region, **kwargs)` (lines 85-108): dispatch
    the GET; a transport error raises `WowApiException`; an ok response has
    its body parsed (an unparseable body raises `WowApiException`); a 401
    refreshes the token via `_get_client_credentials` and re-invokes
    `_handle_request` with the *same* `kwargs`; any other non-ok status
    raises `WowApiException`. The source bounds the recursion in no way;
    in the model the `session.get` (inlined here: log the request, consume
    the next resource response, exhausted oracle = `RequestException`)
    takes one response per round, so the recursion is measured by the
    remaining oracle. -/
def handle_request (url region : String) (params : List (String × Json))
    (s : ApiState) : Except ApiError Json × ApiState :=
  match hres : s.resourceResponses with
  | [] =>
      (.error (.request "connection error"),
       { s with sentRequests := s.sentRequests ++ [⟨url, params⟩] })
  | r :: rest =>
    let s1 : ApiState :=
      { s with sentRequests := s.sentRequests ++ [⟨url, params⟩],
               resourceResponses := rest }
    match r with
    | .connError msg => (.error (.request msg), s1)
    | .response status body =>
      if responseOk status then
        match body with
        | some j => (.ok j, s1)
        | none => (.error (.request ("Invalid Json for " ++ url)), s1)
      else if status == 401 then
        let g := get_client_credentials s1 region
        match g.1 with
        | .error e => (.error e, g.2)
        | .ok _ => handle_request url region params g.2
      else
        (.error (.request ("Invalid response - " ++ url ++ " - "
          ++ toString status)), s1)
termination_by s.resourceResponses.length
decreasing_by
  have h := get_client_credentials_resourceResponses s1 region
  simp only [h]
  show s1.resourceResponses.length < s.resourceResponses.length
  have hs1 : s1.resourceResponses = rest := rfl
  rw [hs1, hres]
  simp

/-- Read the digit index of a `str.format` placeholder up to its closing
    brace: on `"12}rest"` it yields the accumulated index and `"rest"`. -/
def readDigits : List Char → Nat → Option (Nat × List Char)
  | [], _ => none
  | c :: rest, acc =>
      if c = '}' then some (acc, rest)
      else if c.isDigit then readDigits rest (acc * 10 + (c.toNat - 48))
      else none

/-- The reader `readDigits` consumes at least the closing brace. -/
theorem readDigits_length {cs : List Char} {acc n : Nat} {tail : List Char}
    (h : readDigits cs acc = some (n, tail)) : tail.length < cs.length := by
  induction cs generalizing acc with
  | nil => simp [readDigits] at h
  | cons c rest ih =>
    unfold readDigits at h
    split at h
    · simp only [Option.some.injEq, Prod.mk.injEq] at h
      rw [← h.2]
      simp
    · split at h
      · exact Nat.lt_trans (ih h) (by simp)
      · cases h

/-- Python `str.format` with positional arguments, on the character list of
    the template, modelled for the placeholder shapes this module's
    templates use (`{i}` with a decimal index): literal characters are
    copied, `{i}` is replaced by argument `i`, and a malformed placeholder
    or an out-of-range index yields `none` (Python raises there). -/
def formatChars : List Char → List String → Option String
  | [], _ => some ""
  | '{' :: cs, args =>
      match hd : readDigits cs 0 with
      | some (n, tail) =>
          match args.get? n with
          | some a => (formatChars tail args).map (fun t => a ++ t)
          | none => none
      | none => none
  | c :: cs, args => (formatChars cs args).map (fun t => String.singleton c ++ t)
termination_by cs _ => cs.length
decreasing_by
  · exact Nat.lt_succ_of_lt (readDigits_length hd)
  · simp

/-- Python `template.format(*args)` as used by `get_resource` (line 111) and by
    `self.__base_url.format(region)` (line 113). -/
def pyFormat (t : String) (args : List String) : Option String :=
  formatChars t.data args

/-- Python `WowApi.get_resource(resource, region, *args, **filters)`
    (lines 110-134): substitute the positional arguments into the path
    template, build the resource URL (fixed host
    `www.gateway.battlenet.com.cn` for region `cn`, else
    `{region}.api.blizzard.com`), fetch a token when the region has none
    cached, refresh when `now >= expiration - 30s`, attach the cached token
    as the `access_token` query parameter next to the caller's filters, and
    dispatch through `_handle_request`. -/
def get_resource (resource region : String) (args : List String)
    (filters : List (String × Json)) (s : ApiState) :
    Except ApiError Json × ApiState :=
  match pyFormat resource args with
  | none => (.error (.uncaught "format error"), s)
  | some res =>
    match pyFormat "{0}.api.blizzard.com" [region] with
    | none => (.error (.uncaught "format error"), s)
    | some templated =>
      let base_url :=
        if region == "cn" then "www.gateway.battlenet.com.cn" else templated
      let url := "https://" ++ base_url ++ "/" ++ res
      let step : Except ApiError Unit × ApiState :=
        match dictGet s.access_tokens region with
        | none => get_client_credentials s region
        | some record =>
          let (now, s1) := popClock s
          if now ≥ record.expiration - 30 then get_client_credentials s1 region
          else (.ok (), s1)
      match step with
      | (.error e, s2) => (.error e, s2)
      | (.ok _, s2) =>
        match dictGet s2.access_tokens region with
        | none => (.error (.uncaught "KeyError: region"), s2)
        | some record2 =>
          handle_request url region
            (dictSet filters "access_token" record2.token) s2

/-- Python `WowApi.get_data_resource(url, region)` (lines 81-83): dispatch a
    pre-built URL with `access_token` set to the cached token for the
    region, or to `''` when the region has no cached record; no freshness
    check, no clock read. -/
def get_data_resource (url region : String) (s : ApiState) :
    Except ApiError Json × ApiState :=
  let tok : Json :=
    match dictGet s.access_tokens region with
    | some record => record.token
    | none => .str ""
  handle_request url region [("access_token", tok)] s

/-- Python `WowApi.get_item(region, id, **filters)` (lines 204-208):
    `get_resource('wow/item/{0}', region, *[id], **filters)`. -/
def get_item (region : String) (id : Int)
    (filters : List (String × Json)) (s : ApiState) :
    Except ApiError Json × ApiState :=
  get_resource "wow/item/{0}" region [toString id] filters s

/-! ## Basic lemmas about the embedded operations -/

theorem dictGet_dictSet_self {α : Type} (l : List (String × α)) (k : String)
    (v : α) : dictGet (dictSet l k v) k = some v := by
  induction l with
  | nil => simp [dictGet, dictSet]
  | cons p rest ih =>
    rcases p with ⟨k', v'⟩
    by_cases h : k' = k
    · subst h
      simp only [dictSet, beq_self_eq_true, if_true]
      unfold dictGet
      rw [List.find?_cons_of_pos _ (by simp)]
      rfl
    · simp only [dictSet]
      rw [if_neg (by simpa using h)]
      unfold dictGet
      rw [List.find?_cons_of_neg _ (by simpa using h)]
      exact ih

theorem dictGet_dictSet_ne {α : Type} (l : List (String × α)) (k k' : String)
    (v : α) (h : k' ≠ k) : dictGet (dictSet l k v) k' = dictGet l k' := by
  induction l with
  | nil =>
      unfold dictGet dictSet
      rw [List.find?_cons_of_neg _ (by simpa using Ne.symm h)]
  | cons p rest ih =>
    rcases p with ⟨k'', v''⟩
    by_cases hk : k'' = k
    · subst hk
      simp only [dictSet, beq_self_eq_true, if_true]
      unfold dictGet
      rw [List.find?_cons_of_neg _ (by simpa using Ne.symm h),
          List.find?_cons_of_neg _ (by simpa using Ne.symm h)]
    · simp only [dictSet]
      rw [if_neg (by simpa using hk)]
      by_cases hk' : k'' = k'
      · subst hk'
        unfold dictGet
        rw [List.find?_cons_of_pos _ (by simp),
            List.find?_cons_of_pos _ (by simp)]
      · unfold dictGet
        rw [List.find?_cons_of_neg _ (by simpa using hk'),
            List.find?_cons_of_neg _ (by simpa using hk')]
        exact ih

/-- A key present before `dictSet` is still present after it. -/
theorem dictGet_dictSet_isSome {α : Type} (l : List (String × α))
    (k k' : String) (v : α) (h : (dictGet l k').isSome) :
    (dictGet (dictSet l k v) k').isSome := by
  by_cases hk : k' = k
  · subst hk
    rw [dictGet_dictSet_self]
    rfl
  · rw [dictGet_dictSet_ne l k k' v hk]
    exact h

/-- Successful OAuth exchange, characterized: when the next OAuth response
    is an ok-status parseable body with an `access_token` and an integer
    `expires_in`, `_get_client_credentials` succeeds and replaces the
    region's record wholesale with the token and the absolute expiration
    `now + expires_in`, where `now` is the clock value read before the
    exchange request went out. -/
theorem get_client_credentials_ok (s : ApiState) (region : String)
    (status : Nat) (j tok : Json) (n : Int) (oasRest : List HttpResult)
    (hhead : s.oauthResponses = .response status (some j) :: oasRest)
    (hok : responseOk status = true)
    (htok : j.getField "access_token" = some tok)
    (hexp : j.getField "expires_in" = some (.num n)) :
    get_client_credentials s region =
      (.ok (),
       { s with clock := s.clock.tail,
                oauthRequests := s.oauthRequests ++ [oauthUrl s region],
                oauthResponses := oasRest,
                access_tokens :=
                  dictSet s.access_tokens region ⟨tok, s.clock.headD 0 + n⟩ }) := by
  obtain ⟨cid, csec, toks, clk, oas, rss, oreq, sreq⟩ := s
  simp only [] at hhead
  subst hhead
  simp [get_client_credentials, popClock_eq, popOauth_eq, hok, htok, hexp]

/-- Failing OAuth exchange, characterized: whenever
    `_get_client_credentials` does not succeed it raises, the token cache
    is unchanged, and exactly one exchange attempt was logged. -/
theorem get_client_credentials_error (s : ApiState) (region : String)
    (e : ApiError) (s' : ApiState)
    (h : get_client_credentials s region = (.error e, s')) :
    s'.access_tokens = s.access_tokens ∧
      s'.oauthRequests = s.oauthRequests ++ [oauthUrl s region] := by
  obtain ⟨cid, csec, toks, clk, oas, rss, oreq, sreq⟩ := s
  simp only [get_client_credentials, popClock_eq, popOauth_eq] at h
  repeat' split at h
  all_goals rw [Prod.mk.injEq] at h
  all_goals try (rw [← h.2]; exact ⟨rfl, rfl⟩)
  all_goals exact absurd h.1 (by simp)

/-- Running `_handle_request` on an ok-status response with a parseable body:
    return the parsed payload; one request logged, no token activity. -/
theorem handle_request_ok (url region : String)
    (params : List (String × Json)) (s : ApiState) (status : Nat) (j : Json)
    (rest : List HttpResult)
    (hhead : s.resourceResponses = .response status (some j) :: rest)
    (hok : responseOk status = true) :
    handle_request url region params s =
      (.ok j,
       { s with sentRequests := s.sentRequests ++ [⟨url, params⟩],
                resourceResponses := rest }) := by
  obtain ⟨cid, csec, toks, clk, oas, rss, oreq, sreq⟩ := s
  simp only [] at hhead
  subst hhead
  simp [handle_request, hok]

/-! ## Test fixtures: concrete responses used by witnesses and
counterexamples -/

/-- A successful OAuth response carrying `access_token` and `expires_in`. -/
def oauthOk (tok : String) (n : Int) : HttpResult :=
  .response 200 (some (.obj [("access_token", .str tok),
                             ("expires_in", .num n)]))

/-- An HTTP 401 response (body irrelevant: the code never parses it). -/
def resp401 : HttpResult := .response 401 none

/-- A successful resource response with parseable body `j`. -/
def respOk (j : Json) : HttpResult := .response 200 (some j)

/-- A sample parsed payload. -/
def payload : Json := .obj [("id", .num 1234)]

/-! ## Claim C5 -/

/-- Claim C5: for every successful OAuth exchange that starts at time `t0`
    (the `_utcnow()` value read before the exchange request is sent) and
    whose response carries integer `expires_in = n`, the cached token
    record's expiration equals `t0 + n` exactly (and the cached token is
    the response's `access_token`). -/
theorem C5_expiration_roundtrip (s : ApiState) (region : String)
    (status : Nat) (j tok : Json) (n t0 : Int) (clkRest : List Int)
    (oasRest : List HttpResult)
    (hclk : s.clock = t0 :: clkRest)
    (hhead : s.oauthResponses = .response status (some j) :: oasRest)
    (hok : responseOk status = true)
    (htok : j.getField "access_token" = some tok)
    (hexp : j.getField "expires_in" = some (.num n)) :
    (get_client_credentials s region).1 = .ok () ∧
      dictGet (get_client_credentials s region).2.access_tokens region =
        some ⟨tok, t0 + n⟩ := by
  rw [get_client_credentials_ok s region status j tok n oasRest hhead hok htok
    hexp]
  refine ⟨rfl, ?_⟩
  simp only [hclk, List.headD_cons]
  exact dictGet_dictSet_self _ _ _

/-- Witness for C5: the spec's own example, `access_token = "T1"`,
    `expires_in = 100`, fetched at `t0 = 1000`: the cached expiration is
    exactly 1100. -/
theorem C5_expiration_roundtrip_witness :
    (get_client_credentials
        (WowApi.init "cid" "csec" [1000] [oauthOk "T1" 100] []) "eu").1 =
      .ok () ∧
      dictGet (get_client_credentials
          (WowApi.init "cid" "csec" [1000] [oauthOk "T1" 100] [])
          "eu").2.access_tokens "eu" =
        some ⟨.str "T1", 1100⟩ :=
  C5_expiration_roundtrip
    (WowApi.init "cid" "csec" [1000] [oauthOk "T1" 100] []) "eu"
    200 (.obj [("access_token", .str "T1"), ("expires_in", .num 100)])
    (.str "T1") 100 1000 [] []
    rfl rfl rfl (by simp [Json.getField]) (by simp [Json.getField])

/-! ## Claim C4 -/

/-- An OAuth response whose parseable body lacks `access_token`. -/
def C4state : ApiState :=
  WowApi.init "cid" "csec" [7]
    [.response 200 (some (.obj [("expires_in", .num 100)]))] []

/-- Counterexample to claim C4 as stated: on a parseable OAuth body missing
    `access_token`, the exchange does NOT fail with the authentication-error
    kind (`WowApiOauthException`); it raises an uncaught `KeyError` (the
    subscript `json['access_token']` on line 72 sits outside the `try`
    block), an error of neither typed kind. The cache is indeed left
    empty. -/
theorem C4_counterexample :
    (get_client_credentials C4state "us").1 =
      .error (.uncaught "KeyError: access_token") ∧
      ApiError.isOauth (.uncaught "KeyError: access_token") = false ∧
      (get_client_credentials C4state "us").2.access_tokens = [] := by
  refine ⟨?_, rfl, ?_⟩ <;>
    simp [C4state, WowApi.init, get_client_credentials, popClock_eq,
      popOauth_eq, Json.getField, responseOk]

/-- Claim C4, amended: for every OAuth response that parses as structured
    data but lacks the `access_token` field, the exchange fails with an
    uncaught `KeyError` — neither the authentication-error kind nor the
    request-error kind — and no token record is stored in the cache. -/
theorem C4_missing_access_token (s : ApiState) (region : String)
    (status : Nat) (j : Json) (oasRest : List HttpResult)
    (hhead : s.oauthResponses = .response status (some j) :: oasRest)
    (hok : responseOk status = true)
    (htok : j.getField "access_token" = none) :
    (get_client_credentials s region).1 =
      .error (.uncaught "KeyError: access_token") ∧
      ApiError.isOauth (.uncaught "KeyError: access_token") = false ∧
      ApiError.isRequest (.uncaught "KeyError: access_token") = false ∧
      (get_client_credentials s region).2.access_tokens = s.access_tokens := by
  obtain ⟨cid, csec, toks, clk, oas, rss, oreq, sreq⟩ := s
  simp only [] at hhead
  subst hhead
  refine ⟨?_, rfl, rfl, ?_⟩ <;>
    simp [get_client_credentials, popClock_eq, popOauth_eq, hok, htok]

/-- Witness for the amended C4, at the concrete `C4state`. -/
theorem C4_missing_access_token_witness :
    (get_client_credentials C4state "us").1 =
      .error (.uncaught "KeyError: access_token") ∧
      ApiError.isOauth (.uncaught "KeyError: access_token") = false ∧
      ApiError.isRequest (.uncaught "KeyError: access_token") = false ∧
      (get_client_credentials C4state "us").2.access_tokens =
        C4state.access_tokens :=
  C4_missing_access_token C4state "us" 200 (.obj [("expires_in", .num 100)])
    [] rfl rfl (by simp [Json.getField])

/-- The errors `_get_client_credentials` can raise, classified: every
    failure is either the OAuth kind, or one of the three uncaught errors,
    the latter only out of an ok-status parseable body. -/
theorem gcc_error_shape (s : ApiState) (region : String) (e : ApiError)
    (s' : ApiState) (h : get_client_credentials s region = (.error e, s')) :
    (∃ m, e = .oauth m) ∨
      ((e = .uncaught "KeyError: access_token" ∨
          e = .uncaught "KeyError: expires_in" ∨
          e = .uncaught "TypeError: expires_in") ∧
        ∃ status j oasRest,
          s.oauthResponses = .response status (some j) :: oasRest ∧
            responseOk status = true) := by
  obtain ⟨cid, csec, toks, clk, oas, rss, oreq, sreq⟩ := s
  rcases oas with _ | ⟨r, oasRest⟩
  · simp only [get_client_credentials, popClock_eq, popOauth_eq,
      List.headD_nil] at h
    rw [Prod.mk.injEq] at h
    exact Or.inl ⟨_, (Except.error.inj h.1).symm⟩
  · rcases r with m | ⟨status, body⟩
    · simp only [get_client_credentials, popClock_eq, popOauth_eq,
        List.headD_cons] at h
      rw [Prod.mk.injEq] at h
      exact Or.inl ⟨_, (Except.error.inj h.1).symm⟩
    · simp only [get_client_credentials, popClock_eq, popOauth_eq,
        List.headD_cons] at h
      by_cases hok : responseOk status = true
      · rw [if_pos hok] at h
        rcases body with _ | j
        · rw [Prod.mk.injEq] at h
          exact Or.inl ⟨_, (Except.error.inj h.1).symm⟩
        · simp only [] at h
          rcases htok : j.getField "access_token" with _ | tok <;>
            rw [htok] at h
          · rw [Prod.mk.injEq] at h
            refine Or.inr ⟨Or.inl (Except.error.inj h.1).symm,
              status, j, oasRest, rfl, hok⟩
          · rcases hexp : j.getField "expires_in" with _ | ex <;>
              rw [hexp] at h
            · rw [Prod.mk.injEq] at h
              refine Or.inr ⟨Or.inr (Or.inl (Except.error.inj h.1).symm),
                status, j, oasRest, rfl, hok⟩
            · have typeErr :
                  (Except.error (ApiError.uncaught "TypeError: expires_in"),
                      ({ client_id := cid, client_secret := csec,
                         access_tokens := toks, clock := clk.tail,
                         oauthResponses := oasRest, resourceResponses := rss,
                         oauthRequests := oreq ++ [oauthUrl ⟨cid, csec, toks,
                           clk, .response status (some j) :: oasRest, rss,
                           oreq, sreq⟩ region],
                         sentRequests := sreq } : ApiState)) =
                      ((Except.error e : Except ApiError Unit), s') →
                    (∃ m, e = .oauth m) ∨
                      ((e = .uncaught "KeyError: access_token" ∨
                          e = .uncaught "KeyError: expires_in" ∨
                          e = .uncaught "TypeError: expires_in") ∧
                        ∃ status' j' oasRest',
                          (HttpResult.response status (some j) :: oasRest
                              : List HttpResult) =
                              .response status' (some j') :: oasRest' ∧
                            responseOk status' = true) := by
                intro h'
                rw [Prod.mk.injEq] at h'
                exact Or.inr ⟨Or.inr (Or.inr (Except.error.inj h'.1).symm),
                  status, j, oasRest, rfl, hok⟩
              rcases ex with _ | b | n | sv | a | o
              · exact typeErr h
              · exact typeErr h
              · exact Except.noConfusion (Prod.mk.injEq .. ▸ h).1
              · exact typeErr h
              · exact typeErr h
              · exact typeErr h
      · rw [if_neg hok] at h
        rw [Prod.mk.injEq] at h
        exact Or.inl ⟨_, (Except.error.inj h.1).symm⟩

/-! ## Claim C6 -/

/-- An OAuth response whose parseable body has `access_token` but lacks
    `expires_in`. -/
def C6state : ApiState :=
  WowApi.init "cid" "csec" [7]
    [.response 200 (some (.obj [("access_token", .str "T1")]))] []

/-- Counterexample to claim C6 as stated: an incomplete OAuth body (here
    missing `expires_in`) is a failing exchange, yet the raised error is an
    uncaught `KeyError` — not one of the module's two typed failure kinds.
    (The cache is still unchanged.) -/
theorem C6_counterexample :
    (get_client_credentials C6state "us").1 =
      .error (.uncaught "KeyError: expires_in") ∧
      ApiError.isOauth (.uncaught "KeyError: expires_in") = false ∧
      ApiError.isRequest (.uncaught "KeyError: expires_in") = false ∧
      (get_client_credentials C6state "us").2.access_tokens = [] := by
  refine ⟨?_, rfl, rfl, ?_⟩ <;>
    simp [C6state, WowApi.init, get_client_credentials, popClock_eq,
      popOauth_eq, Json.getField, responseOk]

/-- Claim C6, amended: every failing OAuth exchange leaves the token cache
    unchanged (no partial record), is never the request-error kind, and for
    the three spec-listed failure classes — connection failure, non-success
    HTTP status, unparseable body — the error is the dedicated OAuth
    failure kind; only a parseable ok-status body missing an expected field
    (or with a non-integer `expires_in`) escapes as an uncaught error
    instead. -/
theorem C6_oauth_failure_no_partial (s : ApiState) (region : String)
    (e : ApiError) (s' : ApiState)
    (h : get_client_credentials s region = (.error e, s')) :
    s'.access_tokens = s.access_tokens ∧
      e.isRequest = false ∧
      (e.isOauth = true ∨ e.isUncaught = true) ∧
      (e.isUncaught = true →
        ∃ status j oasRest,
          s.oauthResponses = .response status (some j) :: oasRest ∧
            responseOk status = true) := by
  have hshape := gcc_error_shape s region e s' h
  refine ⟨(get_client_credentials_error s region e s' h).1, ?_, ?_, ?_⟩
  · rcases hshape with ⟨m, rfl⟩ | ⟨hm, _⟩
    · rfl
    · rcases hm with rfl | rfl | rfl <;> rfl
  · rcases hshape with ⟨m, rfl⟩ | ⟨hm, _⟩
    · exact Or.inl rfl
    · rcases hm with rfl | rfl | rfl <;> exact Or.inr rfl
  · intro hu
    rcases hshape with ⟨m, rfl⟩ | ⟨_, hex⟩
    · simp [ApiError.isUncaught] at hu
    · exact hex

/-- Witness for the amended C6, at a concrete connection-failure input:
    the error is the OAuth kind and the cache is unchanged. -/
theorem C6_oauth_failure_no_partial_witness :
    (WowApi.init "cid" "csec" [7] [.connError "boom"]
        []).access_tokens = [] ∧
      ((get_client_credentials
          (WowApi.init "cid" "csec" [7] [.connError "boom"] [])
          "us").2.access_tokens = [] ∧
        (ApiError.oauth "boom").isRequest = false ∧
        ((ApiError.oauth "boom").isOauth = true ∨
          (ApiError.oauth "boom").isUncaught = true) ∧
        ((ApiError.oauth "boom").isUncaught = true →
          ∃ status j oasRest,
            (WowApi.init "cid" "csec" [7] [.connError "boom"]
                []).oauthResponses = .response status (some j) :: oasRest ∧
              responseOk status = true)) :=
  ⟨rfl,
    C6_oauth_failure_no_partial
      (WowApi.init "cid" "csec" [7] [.connError "boom"] []) "us"
      (.oauth "boom") _
      (by simp [WowApi.init, get_client_credentials, popClock_eq,
        popOauth_eq])⟩

/-! ## Claim C1 -/

/-- Running `_handle_request` on a 401 (lines 92-97): refresh the token via
    `_get_client_credentials`, then call itself again with the same
    `kwargs`. -/
theorem handle_request_401 (url region : String)
    (params : List (String × Json)) (s : ApiState) (body : Option Json)
    (rest : List HttpResult)
    (hres : s.resourceResponses = .response 401 body :: rest) :
    handle_request url region params s =
      (let s1 : ApiState :=
         { s with sentRequests := s.sentRequests ++ [⟨url, params⟩],
                  resourceResponses := rest }
       let g := get_client_credentials s1 region
       match g.1 with
       | .error e => (.error e, g.2)
       | .ok _ => handle_request url region params g.2) := by
  obtain ⟨cid, csec, toks, clk, oas, rss, oreq, sreq⟩ := s
  simp only [] at hres
  subst hres
  rw [handle_request.eq_1]
  norm_num [responseOk]

/-- The state for the C1 counterexample: a fresh cached token for `eu`,
    two successful OAuth responses queued, and a resource dispatch that
    answers 401, 401, 200. -/
def C1state : ApiState :=
  { client_id := "cid", client_secret := "csec",
    access_tokens := [("eu", ⟨.str "T0", 1000⟩)],
    clock := [0, 5],
    oauthResponses := [oauthOk "T1" 100, oauthOk "T2" 100],
    resourceResponses := [resp401, resp401, respOk payload],
    oauthRequests := [], sentRequests := [] }

/-- Counterexample to claim C1 as stated: on a dispatch answering
    401, 401, 200 the call does NOT stop after one forced refresh and one
    retry with a terminal request error — it performs TWO OAuth exchanges,
    dispatches THREE requests, and returns the 200 payload. The 401 branch
    of `_handle_request` re-invokes itself unconditionally, with no retry
    bound. -/
theorem C1_counterexample :
    (get_resource "wow/item/{0}" "eu" ["1234"] [] C1state).1 = .ok payload ∧
      (get_resource "wow/item/{0}" "eu" ["1234"]
        [] C1state).2.oauthRequests.length = 2 ∧
      (get_resource "wow/item/{0}" "eu" ["1234"]
        [] C1state).2.sentRequests.length = 3 := by
  refine ⟨?_, ?_, ?_⟩ <;>
    simp [C1state, get_resource, pyFormat, formatChars, readDigits, dictGet,
      dictSet, popClock_eq, get_client_credentials, popOauth_eq, oauthUrl,
      handle_request, responseOk, oauthOk, resp401, respOk, payload,
      Json.getField]

/-- Claim C1, amended: the 401-triggered retry is NOT bounded. For every
    `k`, a dispatch answering `k` consecutive 401s and then 200 makes the
    executor perform `k` forced refreshes and `k + 1` requests and return
    the payload; the call terminates only when the transport stops
    answering 401 (in the model, when the response oracle moves past the
    401s or runs out — an unbounded 401 stream would recurse forever). -/
theorem C1_unbounded_retry (k : Nat) :
    ∀ (s : ApiState) (url region : String) (params : List (String × Json))
      (j : Json) (tok : String) (n : Int) (rsRest oasRest : List HttpResult),
      s.resourceResponses = List.replicate k resp401 ++ respOk j :: rsRest →
      s.oauthResponses = List.replicate k (oauthOk tok n) ++ oasRest →
      (handle_request url region params s).1 = .ok j ∧
        (handle_request url region params s).2.oauthRequests.length =
          s.oauthRequests.length + k ∧
        (handle_request url region params s).2.sentRequests.length =
          s.sentRequests.length + (k + 1) := by
  induction k with
  | zero =>
    intro s url region params j tok n rsRest oasRest hres hoas
    rw [handle_request_ok url region params s 200 j rsRest
      (by simpa [respOk] using hres) rfl]
    exact ⟨rfl, rfl, by simp⟩
  | succ k ih =>
    intro s url region params j tok n rsRest oasRest hres hoas
    have hres' : s.resourceResponses =
        .response 401 none ::
          (List.replicate k resp401 ++ respOk j :: rsRest) := by
      simpa [List.replicate_succ, resp401] using hres
    have hgcc := get_client_credentials_ok
      ({ s with sentRequests := s.sentRequests ++ [⟨url, params⟩],
                resourceResponses :=
                  List.replicate k resp401 ++ respOk j :: rsRest }) region 200
      (.obj [("access_token", .str tok), ("expires_in", .num n)])
      (.str tok) n (List.replicate k (oauthOk tok n) ++ oasRest)
      (by simp only []; rw [hoas, List.replicate_succ]; rfl) rfl
      (by simp [Json.getField]) (by simp [Json.getField])
    rw [handle_request_401 url region params s none _ hres']
    simp only [hgcc]
    have hih := ih
      { client_id := s.client_id, client_secret := s.client_secret,
        access_tokens := dictSet s.access_tokens region
          ⟨.str tok, s.clock.headD 0 + n⟩,
        clock := s.clock.tail,
        oauthResponses := List.replicate k (oauthOk tok n) ++ oasRest,
        resourceResponses := List.replicate k resp401 ++ respOk j :: rsRest,
        oauthRequests := s.oauthRequests ++
          [oauthUrl { s with
              sentRequests := s.sentRequests ++ [⟨url, params⟩],
              resourceResponses :=
                List.replicate k resp401 ++ respOk j :: rsRest } region],
        sentRequests := s.sentRequests ++ [⟨url, params⟩] }
      url region params j tok n rsRest oasRest rfl rfl
    have e1 : (s.oauthRequests ++
        [oauthUrl { s with
            sentRequests := s.sentRequests ++ [⟨url, params⟩],
            resourceResponses :=
              List.replicate k resp401 ++ respOk j :: rsRest } region]).length
        = s.oauthRequests.length + 1 := by simp
    have e2 : (s.sentRequests ++ [(⟨url, params⟩ : SentRequest)]).length
        = s.sentRequests.length + 1 := by simp
    exact ⟨hih.1,
      hih.2.1.trans (by rw [e1]; omega),
      hih.2.2.trans (by rw [e2]; omega)⟩

/-- Witness for the amended C1, at `k = 2`: two 401s then a 200 produce two
    refreshes, three dispatched requests, and the payload. -/
theorem C1_unbounded_retry_witness :
    (handle_request "https://eu.api.blizzard.com/wow/item/1"
        "eu" [] (WowApi.init "cid" "csec" []
          [oauthOk "T" 60, oauthOk "T" 60]
          [resp401, resp401, respOk payload])).1 = .ok payload ∧
      (handle_request "https://eu.api.blizzard.com/wow/item/1"
          "eu" [] (WowApi.init "cid" "csec" []
            [oauthOk "T" 60, oauthOk "T" 60]
            [resp401, resp401, respOk payload])).2.oauthRequests.length =
        (WowApi.init "cid" "csec" [] [oauthOk "T" 60, oauthOk "T" 60]
          [resp401, resp401, respOk payload]).oauthRequests.length + 2 ∧
      (handle_request "https://eu.api.blizzard.com/wow/item/1"
          "eu" [] (WowApi.init "cid" "csec" []
            [oauthOk "T" 60, oauthOk "T" 60]
            [resp401, resp401, respOk payload])).2.sentRequests.length =
        (WowApi.init "cid" "csec" [] [oauthOk "T" 60, oauthOk "T" 60]
          [resp401, resp401, respOk payload]).sentRequests.length + (2 + 1) :=
  C1_unbounded_retry 2
    (WowApi.init "cid" "csec" [] [oauthOk "T" 60, oauthOk "T" 60]
      [resp401, resp401, respOk payload])
    "https://eu.api.blizzard.com/wow/item/1" "eu" [] payload "T" 60 [] []
    rfl rfl

/-! ## Claim C2 -/

/-- The state for the C2 evaluation: a fresh cached token `T0` for `eu`,
    one successful OAuth response (`T1`) queued, and a resource dispatch
    that answers 401 then 200. -/
def C2state : ApiState :=
  { client_id := "cid", client_secret := "csec",
    access_tokens := [("eu", ⟨.str "T0", 1000⟩)],
    clock := [0, 5],
    oauthResponses := [oauthOk "T1" 100],
    resourceResponses := [resp401, respOk payload],
    oauthRequests := [], sentRequests := [] }

/-- Claim C2, evaluated at the failing input: on 401-then-200 the call does
    perform exactly one forced refresh and one retry and returns the 200
    payload — but the retried request still carries the ORIGINAL token
    `T0` in its query parameters, not the newly refreshed `T1` now in the
    cache: the 401 branch re-invokes `_handle_request` with the old
    `kwargs`, whose `params` dict still holds the stale token. -/
theorem C2_stale_token_retry :
    (get_resource "wow/item/{0}" "eu" ["1234"] [] C2state).1 = .ok payload ∧
      (get_resource "wow/item/{0}" "eu" ["1234"]
        [] C2state).2.oauthRequests.length = 1 ∧
      (get_resource "wow/item/{0}" "eu" ["1234"] [] C2state).2.sentRequests =
        [⟨"https://eu.api.blizzard.com/wow/item/1234",
          [("access_token", .str "T0")]⟩,
         ⟨"https://eu.api.blizzard.com/wow/item/1234",
          [("access_token", .str "T0")]⟩] ∧
      dictGet (get_resource "wow/item/{0}" "eu" ["1234"]
        [] C2state).2.access_tokens "eu" = some ⟨.str "T1", 105⟩ := by
  refine ⟨?_, ?_, ?_, ?_⟩ <;>
    simp [C2state, get_resource, pyFormat, formatChars, readDigits, dictGet,
      dictSet, popClock_eq, get_client_credentials, popOauth_eq, oauthUrl,
      handle_request, responseOk, oauthOk, resp401, respOk, payload,
      Json.getField] <;> rfl

/-! ## Claim C3 -/

/-- Python `'{0}.api.blizzard.com'.format(region)` (line 17 / line 113). -/
theorem pyFormat_base (x : String) :
    pyFormat "{0}.api.blizzard.com" [x] = some (x ++ ".api.blizzard.com") := by
  simp [pyFormat, formatChars, readDigits]
  rfl

/-- Claim C3: on a full `get_resource` call, a region with no cached token
    triggers exactly one OAuth exchange before the resource dispatch; a
    cached record whose expiration is more than 30s after `now` triggers
    none; a cached record with `now >= expiration - 30` (expiration within
    30s of now, inclusive, or already past) triggers exactly one. -/
theorem C3_oauth_exchange_policy (s : ApiState)
    (resource region : String) (args : List String)
    (filters : List (String × Json)) (res : String) (j : Json)
    (rsRest oasRest : List HttpResult) (tok : String) (n : Int)
    (hfmt : pyFormat resource args = some res)
    (hres : s.resourceResponses = .response 200 (some j) :: rsRest)
    (hoas : s.oauthResponses = oauthOk tok n :: oasRest) :
    (dictGet s.access_tokens region = none →
      (get_resource resource region args filters s).1 = .ok j ∧
        (get_resource resource region args filters s).2.oauthRequests.length =
          s.oauthRequests.length + 1 ∧
        (get_resource resource region args filters s).2.sentRequests.length =
          s.sentRequests.length + 1) ∧
      (∀ rec t0 clkRest, dictGet s.access_tokens region = some rec →
        s.clock = t0 :: clkRest → t0 < rec.expiration - 30 →
        (get_resource resource region args filters s).1 = .ok j ∧
          (get_resource resource region args
            filters s).2.oauthRequests.length = s.oauthRequests.length ∧
          (get_resource resource region args
            filters s).2.sentRequests.length = s.sentRequests.length + 1) ∧
      (∀ rec t0 clkRest, dictGet s.access_tokens region = some rec →
        s.clock = t0 :: clkRest → t0 ≥ rec.expiration - 30 →
        (get_resource resource region args filters s).1 = .ok j ∧
          (get_resource resource region args
            filters s).2.oauthRequests.length =
            s.oauthRequests.length + 1 ∧
          (get_resource resource region args
            filters s).2.sentRequests.length = s.sentRequests.length + 1) := by
  refine ⟨?_, ?_, ?_⟩
  · intro hrec
    have hgcc := get_client_credentials_ok s region 200
      (.obj [("access_token", .str tok), ("expires_in", .num n)])
      (.str tok) n oasRest (by simpa [oauthOk] using hoas) rfl
      (by simp [Json.getField]) (by simp [Json.getField])
    have hhr := handle_request_ok
      ("https://" ++ (if region == "cn" then "www.gateway.battlenet.com.cn"
          else region ++ ".api.blizzard.com") ++ "/" ++ res) region
      (dictSet filters "access_token" (.str tok))
      { s with clock := s.clock.tail,
               oauthRequests := s.oauthRequests ++ [oauthUrl s region],
               oauthResponses := oasRest,
               access_tokens := dictSet s.access_tokens region
                 ⟨.str tok, s.clock.headD 0 + n⟩ }
      200 j rsRest (by simpa using hres) rfl
    simp only [get_resource, hfmt, pyFormat_base, hrec, hgcc,
      dictGet_dictSet_self, hhr]
    simp
  · intro rec t0 clkRest hrec hclk hfresh
    have hhr := handle_request_ok
      ("https://" ++ (if region == "cn" then "www.gateway.battlenet.com.cn"
          else region ++ ".api.blizzard.com") ++ "/" ++ res) region
      (dictSet filters "access_token" rec.token)
      { s with clock := clkRest }
      200 j rsRest (by simpa using hres) rfl
    simp only [get_resource, hfmt, pyFormat_base, hrec, popClock_eq, hclk,
      List.headD_cons, List.tail_cons]
    rw [if_neg (by omega)]
    simp only [hrec, hhr]
    simp
  · intro rec t0 clkRest hrec hclk hstale
    have hgcc := get_client_credentials_ok { s with clock := clkRest } region
      200 (.obj [("access_token", .str tok), ("expires_in", .num n)])
      (.str tok) n oasRest (by simpa [oauthOk] using hoas) rfl
      (by simp [Json.getField]) (by simp [Json.getField])
    have hhr := handle_request_ok
      ("https://" ++ (if region == "cn" then "www.gateway.battlenet.com.cn"
          else region ++ ".api.blizzard.com") ++ "/" ++ res) region
      (dictSet filters "access_token" (.str tok))
      { s with clock := clkRest.tail,
               oauthRequests := s.oauthRequests ++
                 [oauthUrl { s with clock := clkRest } region],
               oauthResponses := oasRest,
               access_tokens := dictSet s.access_tokens region
                 ⟨.str tok, clkRest.headD 0 + n⟩ }
      200 j rsRest (by simpa using hres) rfl
    simp only [get_resource, hfmt, pyFormat_base, hrec, popClock_eq, hclk,
      List.headD_cons, List.tail_cons]
    rw [if_pos (by omega)]
    simp only [hgcc, dictGet_dictSet_self, hhr]
    simp

/-- A state with a token for `eu` that is fresh for another 970 seconds. -/
def C3freshState : ApiState :=
  { client_id := "cid", client_secret := "csec",
    access_tokens := [("eu", ⟨.str "T", 1000⟩)],
    clock := [0],
    oauthResponses := [oauthOk "T2" 50],
    resourceResponses := [respOk payload],
    oauthRequests := [], sentRequests := [] }

/-- The same state at `now = 970`: exactly 30 seconds before expiration,
    the inclusive refresh boundary. -/
def C3staleState : ApiState :=
  { client_id := "cid", client_secret := "csec",
    access_tokens := [("eu", ⟨.str "T", 1000⟩)],
    clock := [970],
    oauthResponses := [oauthOk "T2" 50],
    resourceResponses := [respOk payload],
    oauthRequests := [], sentRequests := [] }

/-- Witness for C3: all three cases at concrete states — no cached token,
    a token fresh for another 970s, and a token exactly 30s from expiry
    (the inclusive boundary). -/
theorem C3_oauth_exchange_policy_witness :
    ((get_resource "wow/item/{0}" "eu" ["7"] []
        (WowApi.init "cid" "csec" [0] [oauthOk "T" 50]
          [respOk payload])).1 = .ok payload ∧
      (get_resource "wow/item/{0}" "eu" ["7"] []
        (WowApi.init "cid" "csec" [0] [oauthOk "T" 50]
          [respOk payload])).2.oauthRequests.length =
        (WowApi.init "cid" "csec" [0] [oauthOk "T" 50]
          [respOk payload]).oauthRequests.length + 1 ∧
      (get_resource "wow/item/{0}" "eu" ["7"] []
        (WowApi.init "cid" "csec" [0] [oauthOk "T" 50]
          [respOk payload])).2.sentRequests.length =
        (WowApi.init "cid" "csec" [0] [oauthOk "T" 50]
          [respOk payload]).sentRequests.length + 1) ∧
    ((get_resource "wow/item/{0}" "eu" ["7"] [] C3freshState).1 =
        .ok payload ∧
      (get_resource "wow/item/{0}" "eu" ["7"]
        [] C3freshState).2.oauthRequests.length =
        C3freshState.oauthRequests.length ∧
      (get_resource "wow/item/{0}" "eu" ["7"]
        [] C3freshState).2.sentRequests.length =
        C3freshState.sentRequests.length + 1) ∧
    ((get_resource "wow/item/{0}" "eu" ["7"] [] C3staleState).1 =
        .ok payload ∧
      (get_resource "wow/item/{0}" "eu" ["7"]
        [] C3staleState).2.oauthRequests.length =
        C3staleState.oauthRequests.length + 1 ∧
      (get_resource "wow/item/{0}" "eu" ["7"]
        [] C3staleState).2.sentRequests.length =
        C3staleState.sentRequests.length + 1) :=
  ⟨(C3_oauth_exchange_policy
      (WowApi.init "cid" "csec" [0] [oauthOk "T" 50] [respOk payload])
      "wow/item/{0}" "eu" ["7"] [] "wow/item/7" payload [] [] "T" 50
      (by simp [pyFormat, formatChars, readDigits]; rfl) rfl rfl).1 rfl,
    (C3_oauth_exchange_policy C3freshState
      "wow/item/{0}" "eu" ["7"] [] "wow/item/7" payload [] [] "T2" 50
      (by simp [pyFormat, formatChars, readDigits]; rfl) rfl rfl).2.1
      ⟨.str "T", 1000⟩ 0 [] rfl rfl (by decide),
    (C3_oauth_exchange_policy C3staleState
      "wow/item/{0}" "eu" ["7"] [] "wow/item/7" payload [] [] "T2" 50
      (by simp [pyFormat, formatChars, readDigits]; rfl) rfl rfl).2.2
      ⟨.str "T", 1000⟩ 970 [] rfl rfl (by decide)⟩

/-! ## Claim C8 -/

/-- Claim C8: for every region string the OAuth exchange targets
    `https://{region}.battle.net` and the resource request targets
    `https://{region}.api.blizzard.com`, except region `cn`, which targets
    the fixed hosts `www.battlenet.com.cn` (OAuth) and
    `www.gateway.battlenet.com.cn` (resource); and no region string is
    rejected by the client itself — with well-formed responses the call
    succeeds for any region. -/
theorem C8_region_endpoints (s : ApiState) (region resource : String)
    (args : List String) (filters : List (String × Json)) (res : String)
    (j : Json) (rsRest oasRest : List HttpResult) (tok : String) (n : Int)
    (hfmt : pyFormat resource args = some res)
    (hres : s.resourceResponses = .response 200 (some j) :: rsRest)
    (hoas : s.oauthResponses = oauthOk tok n :: oasRest)
    (hrec : dictGet s.access_tokens region = none) :
    (get_resource resource region args filters s).1 = .ok j ∧
      (get_resource resource region args filters s).2.oauthRequests =
        s.oauthRequests ++
          [if region == "cn" then
            "https://www.battlenet.com.cn" ++
              ("/oauth/token?grant_type=client_credentials&client_id=" ++
                s.client_id ++ "&client_secret=" ++ s.client_secret)
          else
            "https://" ++ region ++ ".battle.net" ++
              ("/oauth/token?grant_type=client_credentials&client_id=" ++
                s.client_id ++ "&client_secret=" ++ s.client_secret)] ∧
      (get_resource resource region args filters s).2.sentRequests =
        s.sentRequests ++
          [⟨"https://" ++ (if region == "cn" then
              "www.gateway.battlenet.com.cn"
            else region ++ ".api.blizzard.com") ++ "/" ++ res,
            dictSet filters "access_token" (.str tok)⟩] := by
  have hgcc := get_client_credentials_ok s region 200
    (.obj [("access_token", .str tok), ("expires_in", .num n)])
    (.str tok) n oasRest (by simpa [oauthOk] using hoas) rfl
    (by simp [Json.getField]) (by simp [Json.getField])
  have hhr := handle_request_ok
    ("https://" ++ (if region == "cn" then "www.gateway.battlenet.com.cn"
        else region ++ ".api.blizzard.com") ++ "/" ++ res) region
    (dictSet filters "access_token" (.str tok))
    { s with clock := s.clock.tail,
             oauthRequests := s.oauthRequests ++ [oauthUrl s region],
             oauthResponses := oasRest,
             access_tokens := dictSet s.access_tokens region
               ⟨.str tok, s.clock.headD 0 + n⟩ }
    200 j rsRest (by simpa using hres) rfl
  simp only [get_resource, hfmt, pyFormat_base, hrec, hgcc,
    dictGet_dictSet_self, hhr]
  refine ⟨by simp, by simp [oauthUrl], by simp⟩


/-- Witness for C8, at region `eu` and at region `cn`. -/
theorem C8_region_endpoints_witness :
    ((get_resource "wow/item/{0}" "eu" ["7"] []
        (WowApi.init "cid" "csec" [0] [oauthOk "T" 50]
          [respOk payload])).1 = .ok payload ∧
      (get_resource "wow/item/{0}" "eu" ["7"] []
        (WowApi.init "cid" "csec" [0] [oauthOk "T" 50]
          [respOk payload])).2.oauthRequests =
        ["https://eu.battle.net/oauth/token?grant_type=client_credentials&client_id=cid&client_secret=csec"] ∧
      (get_resource "wow/item/{0}" "eu" ["7"] []
        (WowApi.init "cid" "csec" [0] [oauthOk "T" 50]
          [respOk payload])).2.sentRequests =
        [⟨"https://eu.api.blizzard.com/wow/item/7",
          [("access_token", .str "T")]⟩]) ∧
    ((get_resource "wow/item/{0}" "cn" ["7"] []
        (WowApi.init "cid" "csec" [0] [oauthOk "T" 50]
          [respOk payload])).1 = .ok payload ∧
      (get_resource "wow/item/{0}" "cn" ["7"] []
        (WowApi.init "cid" "csec" [0] [oauthOk "T" 50]
          [respOk payload])).2.oauthRequests =
        ["https://www.battlenet.com.cn/oauth/token?grant_type=client_credentials&client_id=cid&client_secret=csec"] ∧
      (get_resource "wow/item/{0}" "cn" ["7"] []
        (WowApi.init "cid" "csec" [0] [oauthOk "T" 50]
          [respOk payload])).2.sentRequests =
        [⟨"https://www.gateway.battlenet.com.cn/wow/item/7",
          [("access_token", .str "T")]⟩]) := by
  have hEU := C8_region_endpoints
    (WowApi.init "cid" "csec" [0] [oauthOk "T" 50] [respOk payload])
    "eu" "wow/item/{0}" ["7"] [] "wow/item/7" payload [] [] "T" 50
    (by simp [pyFormat, formatChars, readDigits]; rfl) rfl rfl rfl
  have hCN := C8_region_endpoints
    (WowApi.init "cid" "csec" [0] [oauthOk "T" 50] [respOk payload])
    "cn" "wow/item/{0}" ["7"] [] "wow/item/7" payload [] [] "T" 50
    (by simp [pyFormat, formatChars, readDigits]; rfl) rfl rfl rfl
  refine ⟨⟨hEU.1, ?_, ?_⟩, ⟨hCN.1, ?_, ?_⟩⟩
  · rw [hEU.2.1]
    rfl
  · rw [hEU.2.2]
    rfl
  · rw [hCN.2.1]
    rfl
  · rw [hCN.2.2]
    rfl

/-! ## Claim C9 -/

/-- Running `_handle_request` on an ok-status response with an unparseable body:
    `WowApiException`, one request logged. -/
theorem handle_request_badjson (url region : String)
    (params : List (String × Json)) (s : ApiState) (status : Nat)
    (rest : List HttpResult)
    (hhead : s.resourceResponses = .response status none :: rest)
    (hok : responseOk status = true) :
    handle_request url region params s =
      (.error (.request ("Invalid Json for " ++ url)),
       { s with sentRequests := s.sentRequests ++ [⟨url, params⟩],
                resourceResponses := rest }) := by
  obtain ⟨cid, csec, toks, clk, oas, rss, oreq, sreq⟩ := s
  simp only [] at hhead
  subst hhead
  simp [handle_request, hok]

/-- Running `_handle_request` on a non-ok, non-401 status: `WowApiException`
    carrying URL and status, one request logged. -/
theorem handle_request_httperror (url region : String)
    (params : List (String × Json)) (s : ApiState) (status : Nat)
    (body : Option Json) (rest : List HttpResult)
    (hhead : s.resourceResponses = .response status body :: rest)
    (hok : responseOk status = false) (h401 : (status == 401) = false) :
    handle_request url region params s =
      (.error (.request ("Invalid response - " ++ url ++ " - "
        ++ toString status)),
       { s with sentRequests := s.sentRequests ++ [⟨url, params⟩],
                resourceResponses := rest }) := by
  obtain ⟨cid, csec, toks, clk, oas, rss, oreq, sreq⟩ := s
  simp only [] at hhead
  subst hhead
  simp [handle_request, hok, h401]

/-- Python `'wow/item/{0}'.format(id)` (line 208 via line 111). -/
theorem pyFormat_item (x : String) :
    pyFormat "wow/item/{0}" [x] = some ("wow/item/" ++ x) := by
  simp [pyFormat, formatChars, readDigits]
  rfl

/-- Claim C9: `get_item(region, id, **filters)` dispatches a request whose
    URL is exactly `https://{region}.api.blizzard.com/wow/item/{id}` (the id
    substituted at that one placeholder and nowhere else) and whose query
    parameter set is the caller's filters with `access_token` bound to the
    cached token for the region. Stated here for a non-`cn` region with a
    fresh cached token so no exchange intervenes. -/
theorem C9_item_request (s : ApiState) (region : String) (id : Int)
    (filters : List (String × Json)) (rec : TokenRecord) (t0 : Int)
    (clkRest : List Int) (j : Json) (rsRest : List HttpResult)
    (hrec : dictGet s.access_tokens region = some rec)
    (hclk : s.clock = t0 :: clkRest)
    (hfresh : t0 < rec.expiration - 30)
    (hres : s.resourceResponses = .response 200 (some j) :: rsRest)
    (hcn : (region == "cn") = false) :
    (get_item region id filters s).1 = .ok j ∧
      (get_item region id filters s).2.sentRequests =
        s.sentRequests ++
          [⟨"https://" ++ (region ++ ".api.blizzard.com") ++ "/" ++
              ("wow/item/" ++ toString id),
            dictSet filters "access_token" rec.token⟩] := by
  have hhr := handle_request_ok
    ("https://" ++ (region ++ ".api.blizzard.com") ++ "/" ++
      ("wow/item/" ++ toString id)) region
    (dictSet filters "access_token" rec.token)
    { s with clock := clkRest }
    200 j rsRest (by simpa using hres) rfl
  simp only [get_item, get_resource, pyFormat_item, pyFormat_base, hrec,
    popClock_eq, hclk, List.headD_cons, List.tail_cons, hcn,
    Bool.false_eq_true, if_false]
  rw [if_neg (by omega)]
  simp only [hrec, hhr]
  simp

/-- The state for the C9 witness: a fresh cached token `TOK` for `eu`. -/
def C9state : ApiState :=
  { client_id := "cid", client_secret := "csec",
    access_tokens := [("eu", ⟨.str "TOK", 10000⟩)],
    clock := [0],
    oauthResponses := [],
    resourceResponses := [respOk payload],
    oauthRequests := [], sentRequests := [] }

/-- Witness for C9: `get_item('eu', 1234)` targets
    `https://eu.api.blizzard.com/wow/item/1234` with the cached token as
    the only query parameter. -/
theorem C9_item_request_witness :
    (get_item "eu" 1234 [] C9state).1 = .ok payload ∧
      (get_item "eu" 1234 [] C9state).2.sentRequests =
        [⟨"https://eu.api.blizzard.com/wow/item/1234",
          [("access_token", .str "TOK")]⟩] := by
  have h := C9_item_request C9state "eu" 1234 [] ⟨.str "TOK", 10000⟩ 0 []
    payload [] rfl rfl (by decide) rfl rfl
  refine ⟨h.1, ?_⟩
  rw [h.2]
  rfl

/-! ## Claim C10 -/

/-- Claim C10: `get_data_resource(url, region)` performs no proactive
    pre-expiry refresh: with a cached record the record's token is attached
    unchecked (no clock read, no expiration test — the state is otherwise
    untouched), with no cached record the request is dispatched with
    `access_token = ''` instead of failing, and no OAuth exchange happens
    unless the response is a 401. -/
theorem C10_data_resource_skips_refresh (url region : String) (s : ApiState)
    (j : Json) (rsRest : List HttpResult) :
    (∀ rec, dictGet s.access_tokens region = some rec →
      s.resourceResponses = .response 200 (some j) :: rsRest →
      get_data_resource url region s =
        (.ok j, { s with
                  sentRequests := s.sentRequests ++
                    [⟨url, [("access_token", rec.token)]⟩],
                  resourceResponses := rsRest })) ∧
    (dictGet s.access_tokens region = none →
      s.resourceResponses = .response 200 (some j) :: rsRest →
      get_data_resource url region s =
        (.ok j, { s with
                  sentRequests := s.sentRequests ++
                    [⟨url, [("access_token", .str "")]⟩],
                  resourceResponses := rsRest })) ∧
    (∀ status body rsRest', s.resourceResponses =
        .response status body :: rsRest' → (status == 401) = false →
      (get_data_resource url region s).2.oauthRequests = s.oauthRequests) := by
  refine ⟨?_, ?_, ?_⟩
  · intro rec hrec hres
    have hhr := handle_request_ok url region [("access_token", rec.token)] s
      200 j rsRest hres rfl
    simp only [get_data_resource, hrec, hhr]
  · intro hrec hres
    have hhr := handle_request_ok url region [("access_token", .str "")] s
      200 j rsRest hres rfl
    simp only [get_data_resource, hrec, hhr]
  · intro status body rsRest' hres h401
    by_cases hok : responseOk status = true
    · rcases body with _ | b
      · rw [get_data_resource, handle_request_badjson _ _ _ _ status rsRest'
          hres hok]
      · rw [get_data_resource, handle_request_ok _ _ _ _ status b rsRest'
          hres hok]
    · rw [get_data_resource, handle_request_httperror _ _ _ _ status body
        rsRest' hres (by simpa using hok) h401]

/-- The state for the C10 witness: the cached `eu` token expired long ago
    (expiration -500), yet `get_data_resource` attaches it unchecked. -/
def C10state : ApiState :=
  { client_id := "cid", client_secret := "csec",
    access_tokens := [("eu", ⟨.str "OLD", -500⟩)],
    clock := [],
    oauthResponses := [],
    resourceResponses := [respOk payload],
    oauthRequests := [], sentRequests := [] }

/-- Witness for C10: the expired cached token is attached unchecked; with
    no cached record the empty-string token is attached; a non-401 response
    (404) triggers no OAuth exchange. -/
theorem C10_data_resource_skips_refresh_witness :
    (get_data_resource "https://u" "eu" C10state =
      (.ok payload, { C10state with
                      sentRequests := [⟨"https://u",
                        [("access_token", .str "OLD")]⟩],
                      resourceResponses := [] })) ∧
    (get_data_resource "https://u" "us"
        (WowApi.init "cid" "csec" [] [] [respOk payload]) =
      (.ok payload, { WowApi.init "cid" "csec" [] [] [respOk payload] with
                      sentRequests := [⟨"https://u",
                        [("access_token", .str "")]⟩],
                      resourceResponses := [] })) ∧
    (get_data_resource "https://u" "eu"
        (WowApi.init "cid" "csec" [] []
          [.response 404 none])).2.oauthRequests = [] := by
  refine ⟨?_, ?_, ?_⟩
  · exact (C10_data_resource_skips_refresh "https://u" "eu" C10state payload
      []).1 ⟨.str "OLD", -500⟩ rfl rfl
  · exact (C10_data_resource_skips_refresh "https://u" "us"
      (WowApi.init "cid" "csec" [] [] [respOk payload]) payload []).2.1
      rfl rfl
  · exact (C10_data_resource_skips_refresh "https://u" "eu"
      (WowApi.init "cid" "csec" [] [] [.response 404 none]) payload
      []).2.2 404 none [] rfl rfl

/-! ## Claim C7 -/

/-- Running `_handle_request` with the transport oracle exhausted. -/
theorem handle_request_conn_nil (url region : String)
    (params : List (String × Json)) (s : ApiState)
    (hhead : s.resourceResponses = []) :
    handle_request url region params s =
      (.error (.request "connection error"),
       { s with sentRequests := s.sentRequests ++ [⟨url, params⟩] }) := by
  obtain ⟨cid, csec, toks, clk, oas, rss, oreq, sreq⟩ := s
  simp only [] at hhead
  subst hhead
  simp [handle_request]

/-- Running `_handle_request` on a `RequestException` from the transport. -/
theorem handle_request_connError (url region : String)
    (params : List (String × Json)) (s : ApiState) (msg : String)
    (rest : List HttpResult)
    (hhead : s.resourceResponses = .connError msg :: rest) :
    handle_request url region params s =
      (.error (.request msg),
       { s with sentRequests := s.sentRequests ++ [⟨url, params⟩],
                resourceResponses := rest }) := by
  obtain ⟨cid, csec, toks, clk, oas, rss, oreq, sreq⟩ := s
  simp only [] at hhead
  subst hhead
  simp [handle_request]

/-- The token cache after `_get_client_credentials`: unchanged, or the
    region's record replaced wholesale by one fresh record. -/
theorem gcc_access_tokens_shape (s : ApiState) (region : String) :
    (get_client_credentials s region).2.access_tokens = s.access_tokens ∨
      ∃ rec, (get_client_credentials s region).2.access_tokens =
        dictSet s.access_tokens region rec := by
  simp only [get_client_credentials, popClock_eq, popOauth_eq]
  rcases s.oauthResponses.headD (.connError "connection error") with
    msg | ⟨status, body⟩
  · exact Or.inl rfl
  · simp only []
    split
    · rcases body with _ | j
      · exact Or.inl rfl
      · simp only []
        rcases j.getField "access_token" with _ | tok
        · exact Or.inl rfl
        · simp only []
          rcases j.getField "expires_in" with _ | e
          · exact Or.inl rfl
          · rcases e with _ | b | n | sv | a | o
            · exact Or.inl rfl
            · exact Or.inl rfl
            · exact Or.inr ⟨_, rfl⟩
            · exact Or.inl rfl
            · exact Or.inl rfl
            · exact Or.inl rfl
    · exact Or.inl rfl

/-- A region cached before `_get_client_credentials` is still cached
    after it. -/
theorem gcc_tokens_mono (s : ApiState) (region k : String)
    (hk : (dictGet s.access_tokens k).isSome = true) :
    (dictGet (get_client_credentials s region).2.access_tokens k).isSome =
      true := by
  rcases gcc_access_tokens_shape s region with h | ⟨rec, h⟩ <;> rw [h]
  · exact hk
  · exact dictGet_dictSet_isSome _ _ _ _ hk

/-- A region cached before `_handle_request` is still cached after it. -/
theorem handle_request_tokens_mono (rs : List HttpResult) :
    ∀ (s : ApiState) (url region : String) (params : List (String × Json))
      (k : String), s.resourceResponses = rs →
      (dictGet s.access_tokens k).isSome = true →
      (dictGet (handle_request url region params s).2.access_tokens k).isSome
        = true := by
  induction rs with
  | nil =>
    intro s url region params k hrs hk
    rw [handle_request_conn_nil url region params s hrs]
    exact hk
  | cons r rest ih =>
    intro s url region params k hrs hk
    rcases r with msg | ⟨status, body⟩
    · rw [handle_request_connError url region params s msg rest hrs]
      exact hk
    · by_cases hok : responseOk status = true
      · rcases body with _ | j
        · rw [handle_request_badjson url region params s status rest hrs hok]
          exact hk
        · rw [handle_request_ok url region params s status j rest hrs hok]
          exact hk
      · by_cases h401 : (status == 401) = true
        · have hst : status = 401 := by simpa using h401
          subst hst
          rw [handle_request_401 url region params s body rest hrs]
          rcases hg : get_client_credentials
              { s with sentRequests := s.sentRequests ++ [⟨url, params⟩],
                       resourceResponses := rest } region with ⟨r1, s2⟩
          rcases r1 with e | u
          · simp only [hg]
            have h2 : (get_client_credentials
                { s with sentRequests := s.sentRequests ++ [⟨url, params⟩],
                         resourceResponses := rest } region).2 = s2 := by
              rw [hg]
            rw [← h2]
            exact gcc_tokens_mono _ region k hk
          · simp only [hg]
            have h2 : (get_client_credentials
                { s with sentRequests := s.sentRequests ++ [⟨url, params⟩],
                         resourceResponses := rest } region).2 = s2 := by
              rw [hg]
            have hres2 : s2.resourceResponses = rest := by
              rw [← h2, get_client_credentials_resourceResponses]
            have hk2 : (dictGet s2.access_tokens k).isSome = true := by
              rw [← h2]
              exact gcc_tokens_mono _ region k hk
            exact ih s2 url region params k hres2 hk2
        · rw [handle_request_httperror url region params s status body rest
            hrs (by simpa using hok) (by simpa using h401)]
          exact hk


/-- A region cached before `get_resource` is still cached after it. -/
theorem get_resource_tokens_mono (s : ApiState) (resource region : String)
    (args : List String) (filters : List (String × Json)) (k : String)
    (hk : (dictGet s.access_tokens k).isSome = true) :
    (dictGet (get_resource resource region args
      filters s).2.access_tokens k).isSome = true := by
  simp only [get_resource]
  rcases hf : pyFormat resource args with _ | res
  · exact hk
  · rcases hb : pyFormat "{0}.api.blizzard.com" [region] with _ | b
    · exact hk
    · simp only []
      have main : ∀ (step : Except ApiError Unit × ApiState),
          step.2.access_tokens = s.access_tokens ∨
            (∃ rec, step.2.access_tokens =
              dictSet s.access_tokens region rec) →
          (dictGet (match step with
            | (.error e, s2) => ((.error e : Except ApiError Json), s2)
            | (.ok _, s2) =>
              match dictGet s2.access_tokens region with
              | none => ((.error (.uncaught "KeyError: region") :
                  Except ApiError Json), s2)
              | some record2 =>
                handle_request
                  ("https://" ++ (if region == "cn" then
                    "www.gateway.battlenet.com.cn" else b) ++ "/" ++ res)
                  region (dictSet filters "access_token" record2.token)
                  s2).2.access_tokens k).isSome = true := by
        intro step hshape
        have hk2 : (dictGet step.2.access_tokens k).isSome = true := by
          rcases hshape with h | ⟨rec, h⟩ <;> rw [h]
          · exact hk
          · exact dictGet_dictSet_isSome _ _ _ _ hk
        rcases step with ⟨r1, s2⟩
        rcases r1 with e | u
        · exact hk2
        · simp only []
          rcases hrec2 : dictGet s2.access_tokens region with _ | rec2
          · exact hk2
          · exact handle_request_tokens_mono s2.resourceResponses s2 _ region
              _ k rfl hk2
      rcases hrec : dictGet s.access_tokens region with _ | rec
      · exact main _ (gcc_access_tokens_shape s region)
      · rw [popClock_eq]
        dsimp only
        by_cases hfr : s.clock.headD 0 ≥ rec.expiration - 30
        · rw [if_pos hfr]
          exact main _ (gcc_access_tokens_shape _ region)
        · rw [if_neg hfr]
          exact main ((.ok (), { s with clock := s.clock.tail }))
            (Or.inl rfl)

/-- A region cached before `get_data_resource` is still cached after it. -/
theorem get_data_resource_tokens_mono (s : ApiState) (url region k : String)
    (hk : (dictGet s.access_tokens k).isSome = true) :
    (dictGet (get_data_resource url region s).2.access_tokens k).isSome =
      true := by
  simp only [get_data_resource]
  exact handle_request_tokens_mono s.resourceResponses s url region _ k rfl hk


/-- Claim C7: the token cache is empty at client construction, and every
    operation preserves region records: `_get_client_credentials` either
    leaves the cache alone or replaces the region's record wholesale with
    one fresh record (token and expiration stored together, never partially
    mutated), and a region that has a record keeps having one across
    `_get_client_credentials`, `_handle_request`, `get_resource` and
    `get_data_resource` — records are never removed. -/
theorem C7_cache_lifecycle :
    (∀ cid csec clk oas rs,
      (WowApi.init cid csec clk oas rs).access_tokens = []) ∧
      (∀ s region,
        (get_client_credentials s region).2.access_tokens =
            s.access_tokens ∨
          ∃ rec, (get_client_credentials s region).2.access_tokens =
            dictSet s.access_tokens region rec) ∧
      (∀ s region k, (dictGet s.access_tokens k).isSome = true →
        (dictGet (get_client_credentials
          s region).2.access_tokens k).isSome = true) ∧
      (∀ s url region params k, (dictGet s.access_tokens k).isSome = true →
        (dictGet (handle_request url region
          params s).2.access_tokens k).isSome = true) ∧
      (∀ s resource region args filters k,
        (dictGet s.access_tokens k).isSome = true →
        (dictGet (get_resource resource region args
          filters s).2.access_tokens k).isSome = true) ∧
      (∀ s url region k, (dictGet s.access_tokens k).isSome = true →
        (dictGet (get_data_resource
          url region s).2.access_tokens k).isSome = true) :=
  ⟨fun _ _ _ _ _ => rfl,
    gcc_access_tokens_shape,
    gcc_tokens_mono,
    fun s url region params k hk =>
      handle_request_tokens_mono s.resourceResponses s url region params k
        rfl hk,
    get_resource_tokens_mono,
    get_data_resource_tokens_mono⟩

/-- Witness for C7: a fresh client has an empty cache, and a cached `eu`
    record survives an OAuth exchange, a resource dispatch and a data
    resource call for another region. -/
theorem C7_cache_lifecycle_witness :
    (WowApi.init "cid" "csec" [] [] []).access_tokens = [] ∧
      (dictGet (get_client_credentials
        { client_id := "cid", client_secret := "csec",
          access_tokens := [("eu", ⟨.str "t", 5⟩)], clock := [],
          oauthResponses := [], resourceResponses := [],
          oauthRequests := [], sentRequests := [] }
        "us").2.access_tokens "eu").isSome = true ∧
      (dictGet (handle_request "https://u" "us" []
        { client_id := "cid", client_secret := "csec",
          access_tokens := [("eu", ⟨.str "t", 5⟩)], clock := [],
          oauthResponses := [], resourceResponses := [],
          oauthRequests := [], sentRequests := [] }).2.access_tokens
        "eu").isSome = true ∧
      (dictGet (get_data_resource "https://u" "us"
        { client_id := "cid", client_secret := "csec",
          access_tokens := [("eu", ⟨.str "t", 5⟩)], clock := [],
          oauthResponses := [], resourceResponses := [],
          oauthRequests := [], sentRequests := [] }).2.access_tokens
        "eu").isSome = true :=
  ⟨C7_cache_lifecycle.1 "cid" "csec" [] [] [],
    C7_cache_lifecycle.2.2.1
      { client_id := "cid", client_secret := "csec",
        access_tokens := [("eu", ⟨.str "t", 5⟩)], clock := [],
        oauthResponses := [], resourceResponses := [],
        oauthRequests := [], sentRequests := [] } "us" "eu" rfl,
    C7_cache_lifecycle.2.2.2.1
      { client_id := "cid", client_secret := "csec",
        access_tokens := [("eu", ⟨.str "t", 5⟩)], clock := [],
        oauthResponses := [], resourceResponses := [],
        oauthRequests := [], sentRequests := [] } "https://u" "us" [] "eu"
      rfl,
    C7_cache_lifecycle.2.2.2.2.2
      { client_id := "cid", client_secret := "csec",
        access_tokens := [("eu", ⟨.str "t", 5⟩)], clock := [],
        oauthResponses := [], resourceResponses := [],
        oauthRequests := [], sentRequests := [] } "https://u" "us" "eu" rfl⟩

end Wow
